import Mathlib

/-!
Verification of the extraction / classification / aggregation / cache
subsystem of the exam dashboard (src/app.py), shallowly embedded in Lean.

Timestamps are modelled as a record of an epoch-second count together with
the calendar year and month that pandas accessors (`dt.year`,
`dt.strftime("%Y-%m")`) would read off the same instant.  Month buckets
("YYYY-MM" strings in the code) are modelled as `(year, month)` pairs,
which the formatting makes injective for the years in play.
-/

namespace DashConvoca

/-- Status bucket assigned by `process_dataframe` (the `choices` array plus
the `np.select` default `Em dia`). -/
inductive Status where
  | pendente
  | vencido
  | vence30
  | vence60
  | vence90
  | aVencerAnoAtual
  | emDia
deriving DecidableEq, Repr

/-- An instant: epoch seconds plus the calendar fields pandas would derive
from it. -/
structure DateTime where
  epochSeconds : Int
  year : Int
  month : Nat
deriving DecidableEq, Repr

/-- One raw exam record as used by the core pipeline: entity name
(`NOMEABREVIADO`), exam type (`EXAME`), nullable due date (`REFAZER`). -/
structure Record where
  nomeAbreviado : String
  exame : String
  refazer : Option DateTime
deriving DecidableEq, Repr

/-- `(REFAZER - today).dt.days`: whole days, floored toward negative
infinity (pandas `Timedelta.days`); `none` plays the role of `NaN`. -/
def diasParaVencer (today : DateTime) (refazer : Option DateTime) : Option Int :=
  refazer.map (fun d => (d.epochSeconds - today.epochSeconds).fdiv 86400)

/-- `x < c` on a nullable number, false on `NaN` (as in pandas). -/
def optLt (x : Option Int) (c : Int) : Bool :=
  match x with
  | none => false
  | some v => decide (v < c)

/-- `x <= c` on a nullable number, false on `NaN`. -/
def optLe (x : Option Int) (c : Int) : Bool :=
  match x with
  | none => false
  | some v => decide (v ≤ c)

/-- `x >= c` on a nullable number, false on `NaN`. -/
def optGe (x : Option Int) (c : Int) : Bool :=
  match x with
  | none => false
  | some v => decide (c ≤ v)

/-- `x > c` on a nullable number, false on `NaN`. -/
def optGt (x : Option Int) (c : Int) : Bool :=
  match x with
  | none => false
  | some v => decide (c < v)

/-- `df['REFAZER'].dt.year == today.year`: false on `NaT`. -/
def refazerYearIs (x : Option DateTime) (y : Int) : Bool :=
  match x with
  | none => false
  | some d => decide (d.year = y)

/-- `np.select`: the first condition that holds selects its choice, the
default applies when none does. -/
def selectFirst (conds : List (Bool × Status)) (dflt : Status) : Status :=
  match conds with
  | [] => dflt
  | (c, s) :: rest => if c then s else selectFirst rest dflt

/-- The `np.select(conditions, choices, default='Em dia')` call of
`process_dataframe`, with the six conditions and choices in source order. -/
def process_status (today : DateTime) (r : Record) : Status :=
  let dias := diasParaVencer today r.refazer
  selectFirst
    [ (r.refazer.isNone, .pendente)
    , (optLt dias 0, .vencido)
    , (optGe dias 0 && optLe dias 30, .vence30)
    , (optGt dias 30 && optLe dias 60, .vence60)
    , (optGt dias 60 && optLe dias 90, .vence90)
    , (refazerYearIs r.refazer today.year, .aVencerAnoAtual) ]
    .emDia

/-- A processed row: the original columns plus the three derived columns
added by `process_dataframe`. -/
structure ProcRecord where
  nomeAbreviado : String
  exame : String
  refazer : Option DateTime
  diasParaVencer : Option Int
  status : Status
  mesAnoVencimento : Option (Int × Nat)
deriving DecidableEq, Repr

/-- One row of `process_dataframe`'s output. -/
def processRecord (today : DateTime) (r : Record) : ProcRecord :=
  { nomeAbreviado := r.nomeAbreviado
    exame := r.exame
    refazer := r.refazer
    diasParaVencer := diasParaVencer today r.refazer
    status := process_status today r
    mesAnoVencimento := r.refazer.map (fun d => (d.year, d.month)) }

/-- `process_dataframe`: adds `DiasParaVencer`, `Status` and
`MesAnoVencimento` to every row. -/
def process_dataframe (today : DateTime) (df : List Record) : List ProcRecord :=
  df.map (processRecord today)

/-- Modelled from the spec: the seven-rule, ordered, first-match-wins
decision table of section 4.2, written directly from the spec's words, to
be compared with `process_status` (the embedding of the code). -/
def specDecisionTable (today : DateTime) (r : Record) : Status :=
  match r.refazer with
  | none => .pendente
  | some d =>
    let dte := (d.epochSeconds - today.epochSeconds).fdiv 86400
    if dte < 0 then .vencido
    else if 0 ≤ dte ∧ dte ≤ 30 then .vence30
    else if 30 < dte ∧ dte ≤ 60 then .vence60
    else if 60 < dte ∧ dte ≤ 90 then .vence90
    else if d.year = today.year then .aVencerAnoAtual
    else .emDia

/-- Count of processed rows carrying a given status
(`filtered_df[filtered_df['Status'] == s].shape[0]`, also the entry of the
`value_counts` status histogram). -/
def statusCount (s : Status) (df : List ProcRecord) : Nat :=
  (df.filter (fun r => decide (r.status = s))).length

/-- `vencidos` KPI of `update_kpis_and_status`. -/
def kpi_vencidos (df : List ProcRecord) : Nat :=
  (df.filter (fun r => decide (r.status = .vencido))).length

/-- `a_vencer_90` KPI of `update_kpis_and_status`: the three `Vence em`
buckets only. -/
def kpi_a_vencer_90 (df : List ProcRecord) : Nat :=
  (df.filter (fun r =>
    decide (r.status = .vence30) || decide (r.status = .vence60) ||
      decide (r.status = .vence90))).length

/-- `pendentes` KPI of `update_kpis_and_status`. -/
def kpi_pendentes (df : List ProcRecord) : Nat :=
  (df.filter (fun r => decide (r.status = .pendente))).length

/-- `em_dia` KPI of `update_kpis_and_status`: `Em dia` together with
`A Vencer (ano atual)`. -/
def kpi_em_dia (df : List ProcRecord) : Nat :=
  (df.filter (fun r =>
    decide (r.status = .emDia) || decide (r.status = .aVencerAnoAtual))).length

/-- Entry of the due-month histogram (`value_counts` over
`MesAnoVencimento` in `update_vencimentos_chart`). -/
def monthHistogram (m : Int × Nat) (df : List ProcRecord) : Nat :=
  (df.filter (fun r => decide (r.mesAnoVencimento = some m))).length

/-- Concatenation of the per-entity chunks, in fetch order, as performed by
the `extend`/`append` accumulation loop of `extract_data_from_api`. -/
def mergeChunks : List (List Record) → List Record
  | [] => []
  | c :: cs => c ++ mergeChunks cs

/-- A fixed current instant used by concrete scenarios: epoch second 0,
taken to lie in January 2025. -/
def sampleToday : DateTime := ⟨0, 2025, 1⟩

/-- A record due 200 days after `sampleToday`, still inside 2025, so its
status is `A Vencer (ano atual)`. -/
def recThisYear : Record := ⟨"ACME", "HEMOGRAMA", some ⟨17280000, 2025, 7⟩⟩

/-- A record with no due date, used in concrete scenarios. -/
def recNoDue : Record := ⟨"BETA", "ACUIDADE", none⟩

/-- `is_cache_valid`: false when the cache files are missing, otherwise
true exactly when strictly less than 86400 seconds (24 hours) separate the
recorded timestamp from the current time. -/
def is_cache_valid (filesExist : Bool) (cacheTimestamp now : Int) : Bool :=
  filesExist && decide (now - cacheTimestamp < 86400)

/-- Run-fatal extraction errors: failed token issuance (`AuthError`) or any
other exception reaching the outer `try` of `extract_data_from_api`. -/
inductive ApiError where
  | authError
  | transportError
deriving DecidableEq, Repr

/-- Failure semantics of `extract_data_from_api`: a successful run returns
its records; on a run-level error the previously persisted CSV is returned
when it exists, otherwise the error is re-raised. -/
def extract_data_from_api (fetched : Except ApiError (List Record))
    (persistedCsv : Option (List Record)) : Except ApiError (List Record) :=
  match fetched with
  | .ok df => .ok df
  | .error e =>
    match persistedCsv with
    | some cached => .ok cached
    | none => .error e

/-- The empty frame `load_initial_data` falls back to
(`pd.DataFrame(columns=[...])`): no rows at all. -/
def emptyFrame : List Record := []

/-- `load_initial_data`: serve the persisted CSV while the cache is valid;
otherwise extract, and on any escaping error return the empty frame. -/
def load_initial_data (cacheValid : Bool) (persistedCsv : Option (List Record))
    (fetched : Except ApiError (List Record)) : List Record :=
  if cacheValid then persistedCsv.getD emptyFrame
  else
    match extract_data_from_api fetched persistedCsv with
    | .ok df => df
    | .error _ => emptyFrame

/-- Shape of one decoded per-entity payload: a JSON object, a JSON array of
objects, or any other decoded value. -/
inductive Payload where
  | dict (r : Record)
  | seq (rs : List Record)
  | scalar
deriving DecidableEq, Repr

/-- The normalize-to-sequence reading of a payload. -/
def normalize_payload : Payload → List Record
  | .dict r => [r]
  | .seq rs => rs
  | .scalar => []

/-- The `isinstance` branching of the accumulation loop: a list `extend`s
the accumulator, a dict is `append`ed, anything else is ignored. -/
def ingest_payload (acc : List Record) (p : Payload) : List Record :=
  match p with
  | .seq rs => acc ++ rs
  | .dict r => acc ++ [r]
  | .scalar => acc

/-- The period mask of `filter_dataframe`: rows with a missing `REFAZER`
pass, other rows pass exactly when `REFAZER` lies in `[start, end]`. -/
def date_mask (startDate endDate : Int) (r : ProcRecord) : Bool :=
  r.refazer.isNone ||
    (match r.refazer with
     | some d => decide (startDate ≤ d.epochSeconds) && decide (d.epochSeconds ≤ endDate)
     | none => false)

/-- `filter_dataframe`: entity filter (with the `'todas'` sentinel meaning
no filtering) followed by the period mask. -/
def filter_dataframe (empresa : String) (startDate endDate : Int)
    (dfProcessed : List ProcRecord) : List ProcRecord :=
  (if empresa = "todas" then dfProcessed
   else dfProcessed.filter (fun r => decide (r.nomeAbreviado = empresa))).filter
    (date_mask startDate endDate)

/-- Index of a calendar month on the integer month axis (year times 12 plus
zero-based month). -/
def monthIdx (y : Int) (m : Nat) : Int := y * 12 + (m : Int) - 1

/-- Calendar month of a month index. -/
def idxToYM (idx : Int) : Int × Nat := (idx.fdiv 12, (idx.emod 12).toNat + 1)

/-- The candidate month list of `identify_incompany_months`: the months
from the current month through December 2025, in order; empty when the
current month already lies beyond December 2025. -/
def monthsUpTo (y : Int) (m : Nat) : List (Int × Nat) :=
  if monthIdx y m ≤ monthIdx 2025 12 then
    (List.range ((monthIdx 2025 12 - monthIdx y m).toNat + 1)).map
      (fun i : Nat => idxToYM (monthIdx y m + (i : Int)))
  else []

/-- `df[df['NOMEABREVIADO'] == empresa]`. -/
def empresaDf (df : List ProcRecord) (empresa : String) : List ProcRecord :=
  df.filter (fun r => decide (r.nomeAbreviado = empresa))

/-- `month_counts.get(month, 0)`: occurrences of one due month in a frame
(missing due months are never equal to a real month, as in
`value_counts`). -/
def monthCount (df : List ProcRecord) (m : Int × Nat) : Nat :=
  df.countP (fun r => decide (r.mesAnoVencimento = some m))

/-- `identify_incompany_months`: for every distinct non-blank entity name,
the candidate months whose per-entity record count reaches `min_exams`,
with their counts; entities with no such month are omitted. -/
def identify_incompany_months (today : DateTime) (df : List ProcRecord)
    (min_exams : Nat) : List (String × List ((Int × Nat) × Nat)) :=
  let months := monthsUpTo today.year today.month
  ((df.map (fun r => r.nomeAbreviado)).dedup).filterMap (fun empresa =>
    if empresa.data.all Char.isWhitespace then none
    else
      let eligible :=
        (months.filter (fun m => decide (min_exams ≤ monthCount (empresaDf df empresa) m))).map
          (fun m => (m, monthCount (empresaDf df empresa) m))
      if eligible.isEmpty then none else some (empresa, eligible))

/-- Scenario record for entity Y, due in June 2025 (150 days after
`sampleToday`). -/
def recY : Record := ⟨"Y", "AUDIOMETRIA", some ⟨12960000, 2025, 6⟩⟩

/-- Scenario B dataset: 25 records for entity Y, all due in June 2025,
processed at an arbitrary current instant. -/
def dfY25 (today : DateTime) : List ProcRecord :=
  process_dataframe today (List.replicate 25 recY)

/-- A 20-record variant of the Y dataset processed at `sampleToday`. -/
def dfY20 : List ProcRecord :=
  process_dataframe sampleToday (List.replicate 20 recY)

/-- A current instant in October 2026, past the hard-coded December 2025
end of the candidate month range. -/
def lateToday : DateTime := ⟨55000000, 2026, 10⟩

/-- Scenario A dataset: exactly three records for entity X with the given
due dates, processed at the given current instant. -/
def scenarioA_df (today d1 d2 d3 : DateTime) : List ProcRecord :=
  process_dataframe today
    [⟨"X", "EX1", some d1⟩, ⟨"X", "EX2", some d2⟩, ⟨"X", "EX3", some d3⟩]

/-- Due date 25 days after `sampleToday`. -/
def dA : DateTime := ⟨2160000, 2025, 1⟩

/-- Due date 45 days after `sampleToday`. -/
def dB : DateTime := ⟨3888000, 2025, 2⟩

/-- Due date 95 days after `sampleToday`, still in 2025. -/
def dC : DateTime := ⟨8208000, 2025, 4⟩

end DashConvoca

namespace DashConvoca

/-- C2: classification applies the seven rules in order with
first-match-wins semantics on whole-day `daysToExpire`; being a total
function of the record and the current instant, it assigns exactly one
status bucket, deterministically, and a missing due date yields Pending. -/
theorem classification_first_match_decision_table (today : DateTime) (r : Record) :
    process_status today r = specDecisionTable today r := by
  cases h : r.refazer with
  | none =>
    simp [process_status, specDecisionTable, selectFirst, diasParaVencer, h]
  | some d =>
    simp only [process_status, specDecisionTable, selectFirst, diasParaVencer, h,
      Option.map_some, Option.isNone_some, optLt, optLe, optGe, optGt, refazerYearIs,
      Bool.false_eq_true, if_false]
    split_ifs <;> simp_all

/-- C1 counterexample: on a dataset holding one record classified
`A Vencer (ano atual)` (DueThisYear), the code's `a_vencer_90` KPI is 0
while the claimed formula `Due30 + Due60 + Due90 + DueThisYear` gives 1:
the KPI function does not include DueThisYear in `expiringSoon`. -/
theorem kpi_expiringSoon_claim_refuted :
    kpi_a_vencer_90 (process_dataframe sampleToday [recThisYear]) ≠
      statusCount .vence30 (process_dataframe sampleToday [recThisYear]) +
        statusCount .vence60 (process_dataframe sampleToday [recThisYear]) +
        statusCount .vence90 (process_dataframe sampleToday [recThisYear]) +
        statusCount .aVencerAnoAtual (process_dataframe sampleToday [recThisYear]) := by
  decide

/-- C1 amended: for every processed dataset the KPI function returns
`expired = statusCounts[Expired]`, `expiringSoon = Due30 + Due60 + Due90`
(DueThisYear not included), `pending = statusCounts[Pending]`, and
`onTrack = statusCounts[OnTrack] + statusCounts[DueThisYear]`. -/
theorem kpis_from_statusCounts (df : List ProcRecord) :
    kpi_vencidos df = statusCount .vencido df ∧
    kpi_a_vencer_90 df =
      statusCount .vence30 df + statusCount .vence60 df + statusCount .vence90 df ∧
    kpi_pendentes df = statusCount .pendente df ∧
    kpi_em_dia df = statusCount .emDia df + statusCount .aVencerAnoAtual df := by
  induction df with
  | nil =>
    simp [kpi_vencidos, kpi_a_vencer_90, kpi_pendentes, kpi_em_dia, statusCount]
  | cons r rest ih =>
    obtain ⟨ih1, ih2, ih3, ih4⟩ := ih
    cases h : r.status <;>
      simp [kpi_vencidos, kpi_a_vencer_90, kpi_pendentes, kpi_em_dia, statusCount, h,
        List.filter_cons] at ih1 ih2 ih3 ih4 ⊢ <;>
      omega

/-- Merging a permuted chunk list yields a permutation of the merged
records. -/
theorem mergeChunks_perm {cs₁ cs₂ : List (List Record)} (h : cs₁.Perm cs₂) :
    (mergeChunks cs₁).Perm (mergeChunks cs₂) := by
  induction h with
  | nil => exact .refl _
  | cons a _ ih => exact ih.append_left a
  | swap a b l =>
    show (b ++ (a ++ mergeChunks l)).Perm (a ++ (b ++ mergeChunks l))
    rw [← List.append_assoc, ← List.append_assoc]
    exact List.perm_append_comm.append_right _
  | trans _ _ ih₁ ih₂ => exact ih₁.trans ih₂

/-- C6: merging the same set of entity chunks in any two orders yields
identical status counts and identical month histograms after
classification. -/
theorem aggregation_order_independent (today : DateTime)
    {cs₁ cs₂ : List (List Record)} (h : cs₁.Perm cs₂) :
    (∀ s, statusCount s (process_dataframe today (mergeChunks cs₁)) =
      statusCount s (process_dataframe today (mergeChunks cs₂))) ∧
    (∀ m, monthHistogram m (process_dataframe today (mergeChunks cs₁)) =
      monthHistogram m (process_dataframe today (mergeChunks cs₂))) := by
  have hp : (process_dataframe today (mergeChunks cs₁)).Perm
      (process_dataframe today (mergeChunks cs₂)) :=
    (mergeChunks_perm h).map (processRecord today)
  exact ⟨fun s => ((hp.filter _).length_eq),
    fun m => ((hp.filter _).length_eq)⟩

/-- C6 witness: swapping two concrete one-record chunks leaves the
`Pendente` status count unchanged. -/
theorem aggregation_order_independent_witness :
    ([[recThisYear], [recNoDue]] : List (List Record)).Perm [[recNoDue], [recThisYear]] ∧
      statusCount .pendente (process_dataframe sampleToday
        (mergeChunks [[recThisYear], [recNoDue]])) =
        statusCount .pendente (process_dataframe sampleToday
          (mergeChunks [[recNoDue], [recThisYear]])) :=
  ⟨List.Perm.swap [recNoDue] [recThisYear] [],
    (aggregation_order_independent sampleToday
      (List.Perm.swap [recNoDue] [recThisYear] [])).1 .pendente⟩

/-- C7: with the cache files present, the freshness check accepts a
timestamp exactly when less than 24 hours (86400 seconds) separate it from
now, and rejects it at exactly 24 hours. -/
theorem cache_freshness_boundary (now ts : Int) :
    (is_cache_valid true ts now = true ↔ now - ts < 86400) ∧
      (now - ts = 86400 → is_cache_valid true ts now = false) := by
  constructor
  · simp [is_cache_valid]
  · intro h
    simp [is_cache_valid, h]

/-- C7 witness: a timestamp lagging now by exactly 86400 seconds is
reported stale. -/
theorem cache_freshness_boundary_witness :
    (86400 - 0 : Int) = 86400 ∧ is_cache_valid true 0 86400 = false :=
  ⟨rfl, (cache_freshness_boundary 86400 0).2 rfl⟩

/-- C9: ingestion normalizes both payload shapes to a sequence: a payload
arriving as a single object contributes exactly that record, one arriving
as a sequence contributes exactly its records, appended to the
accumulated run in either case. -/
theorem payload_normalization_both_shapes (acc : List Record) (r : Record)
    (rs : List Record) :
    ingest_payload acc (.dict r) = acc ++ normalize_payload (.dict r) ∧
      ingest_payload acc (.seq rs) = acc ++ normalize_payload (.seq rs) ∧
      normalize_payload (.dict r) = [r] ∧ normalize_payload (.seq rs) = rs :=
  ⟨rfl, rfl, rfl, rfl⟩

/-- C10: a row with a missing due date passes the period mask for every
start and end date, so the period filter never removes it: it survives
`filter_dataframe` whenever the entity filter keeps it. -/
theorem null_due_date_passes_period_filter (empresa : String) (s e : Int)
    (df : List ProcRecord) (r : ProcRecord) (hnull : r.refazer = none) :
    date_mask s e r = true ∧
      (r ∈ df → (empresa = "todas" ∨ r.nomeAbreviado = empresa) →
        r ∈ filter_dataframe empresa s e df) := by
  have hmask : date_mask s e r = true := by
    simp [date_mask, hnull]
  refine ⟨hmask, fun hdf hemp => ?_⟩
  unfold filter_dataframe
  rcases hemp with htodas | hname
  · rw [if_pos htodas]
    exact List.mem_filter.mpr ⟨hdf, hmask⟩
  · by_cases htodas : empresa = "todas"
    · rw [if_pos htodas]
      exact List.mem_filter.mpr ⟨hdf, hmask⟩
    · rw [if_neg htodas]
      exact List.mem_filter.mpr
        ⟨List.mem_filter.mpr ⟨hdf, by simp [hname]⟩, hmask⟩

/-- C10 witness: a concrete processed row with no due date survives
`filter_dataframe` for its own entity and an arbitrary narrow period. -/
theorem null_due_date_passes_period_filter_witness :
    (processRecord sampleToday recNoDue).refazer = none ∧
      date_mask 0 10 (processRecord sampleToday recNoDue) = true ∧
      processRecord sampleToday recNoDue ∈
        filter_dataframe "BETA" 0 10 [processRecord sampleToday recNoDue] :=
  ⟨rfl,
    (null_due_date_passes_period_filter "BETA" 0 10
      [processRecord sampleToday recNoDue] (processRecord sampleToday recNoDue) rfl).1,
    (null_due_date_passes_period_filter "BETA" 0 10
      [processRecord sampleToday recNoDue] (processRecord sampleToday recNoDue) rfl).2
      (List.mem_singleton.mpr rfl) (Or.inr rfl)⟩

/-- C4: when extraction fails, `load_initial_data` returns the last
persisted frame when one exists (stale or not) and the explicit empty
frame otherwise; the empty frame has zero records, zero in every status
bucket, and an empty eligibility map — no error ever escapes to a
caller. -/
theorem load_fallback_on_extraction_failure (e : ApiError)
    (persistedCsv : Option (List Record)) (today : DateTime) :
    load_initial_data false persistedCsv (.error e) = persistedCsv.getD emptyFrame ∧
      emptyFrame.length = 0 ∧
      (∀ s, statusCount s (process_dataframe today emptyFrame) = 0) ∧
      identify_incompany_months today (process_dataframe today emptyFrame) 20 = [] := by
  refine ⟨?_, rfl, fun s => rfl, rfl⟩
  cases persistedCsv <;>
    simp [load_initial_data, extract_data_from_api, emptyFrame]

/-- C5: every (entity, month) pair present in the eligibility map carries a
count of at least 20, and that count is the cumulative count over all of
the entity's records in the whole processed dataset. -/
theorem eligibility_entries_meet_threshold (today : DateTime) (df : List ProcRecord)
    (empresa : String) (ms : List ((Int × Nat) × Nat)) (m : Int × Nat) (c : Nat)
    (hmem : (empresa, ms) ∈ identify_incompany_months today df 20)
    (hm : (m, c) ∈ ms) :
    20 ≤ c ∧ c = monthCount (empresaDf df empresa) m := by
  simp only [identify_incompany_months, List.mem_filterMap] at hmem
  obtain ⟨e, -, hfe⟩ := hmem
  split at hfe
  · exact absurd hfe (by simp)
  · split at hfe
    · exact absurd hfe (by simp)
    · rw [Option.some_inj, Prod.mk.injEq] at hfe
      obtain ⟨rfl, rfl⟩ := hfe
      simp only [List.mem_map, List.mem_filter] at hm
      obtain ⟨m', ⟨-, hcnt⟩, hpair⟩ := hm
      rw [Prod.mk.injEq] at hpair
      obtain ⟨rfl, rfl⟩ := hpair
      exact ⟨by simpa using hcnt, rfl⟩

/-- C5 witness: twenty June-2025 records for entity Y produce the
eligibility entry (Y, June 2025, 20), whose count meets the threshold and
equals the cumulative count for Y. -/
theorem eligibility_entries_meet_threshold_witness :
    ("Y", [(((2025 : Int), (6 : Nat)), 20)]) ∈
        identify_incompany_months sampleToday dfY20 20 ∧
      (((2025 : Int), (6 : Nat)), 20) ∈ [(((2025 : Int), (6 : Nat)), 20)] ∧
      (20 ≤ 20 ∧ 20 = monthCount (empresaDf dfY20 "Y") ((2025 : Int), (6 : Nat))) :=
  ⟨by decide, by decide,
    eligibility_entries_meet_threshold sampleToday dfY20 "Y"
      [(((2025 : Int), (6 : Nat)), 20)] ((2025 : Int), (6 : Nat)) 20
      (by decide) (by decide)⟩

/-- A list with a member is not empty. -/
theorem isEmpty_false_of_mem {α : Type} {a : α} {l : List α} (h : a ∈ l) :
    l.isEmpty = false := by
  cases l
  · simp at h
  · rfl

/-- C3 counterexample: at a current instant in October 2026 the candidate
month range (current month through December 2025) is empty, so the very
dataset of Scenario B — 25 records for entity Y all due in June 2025 —
yields an eligibility map with no entry for Y at all. -/
theorem eligibility_scenarioB_refuted_late_now :
    (identify_incompany_months lateToday (dfY25 lateToday) 20).lookup "Y" = none := by
  decide

/-- C3 amended: provided the current month does not lie after June 2025
(the candidate month range runs from the current month through December
2025), 25 records for entity Y all due in June 2025 give Y an eligibility
entry for June 2025 with cumulative count 25. -/
theorem eligibility_scenarioB_amended (today : DateTime)
    (h : monthIdx today.year today.month ≤ monthIdx 2025 6) :
    ∃ els, (identify_incompany_months today (dfY25 today) 20).lookup "Y" = some els ∧
      (((2025 : Int), (6 : Nat)), 25) ∈ els := by
  have hrep : dfY25 today = List.replicate 25 (processRecord today recY) := by
    simp [dfY25, process_dataframe, List.map_replicate]
  have hname : (processRecord today recY).nomeAbreviado = "Y" := rfl
  have hmes : (processRecord today recY).mesAnoVencimento =
      some ((2025 : Int), (6 : Nat)) := rfl
  have hempdf : empresaDf (dfY25 today) "Y" = dfY25 today := by
    rw [hrep]
    apply List.filter_eq_self.mpr
    intro r hr
    rw [List.eq_of_mem_replicate hr]
    simp [hname]
  have hcount25 : monthCount (empresaDf (dfY25 today) "Y") ((2025 : Int), (6 : Nat)) = 25 := by
    rw [hempdf, hrep, monthCount, List.countP_replicate]
    simp [hmes]
  have h6mem : ((2025 : Int), (6 : Nat)) ∈ monthsUpTo today.year today.month := by
    unfold monthsUpTo
    rw [if_pos (le_trans h (by decide))]
    have h2 : monthIdx 2025 6 ≤ monthIdx 2025 12 := by decide
    have hk : monthIdx today.year today.month +
        ((monthIdx 2025 6 - monthIdx today.year today.month).toNat : Int) =
        monthIdx 2025 6 := by omega
    have hgoal : ((2025 : Int), (6 : Nat)) = idxToYM (monthIdx today.year today.month +
        ((monthIdx 2025 6 - monthIdx today.year today.month).toNat : Int)) := by
      rw [hk]
      decide
    rw [hgoal]
    refine List.mem_map_of_mem _ (List.mem_range.mpr ?_)
    omega
  have hElig : (((2025 : Int), (6 : Nat)), 25) ∈
      ((monthsUpTo today.year today.month).filter
        (fun m => decide (20 ≤ monthCount (empresaDf (dfY25 today) "Y") m))).map
        (fun m => (m, monthCount (empresaDf (dfY25 today) "Y") m)) := by
    refine List.mem_map.mpr
      ⟨((2025 : Int), (6 : Nat)), List.mem_filter.mpr ⟨h6mem, ?_⟩, ?_⟩
    · simp [hcount25]
    · rw [hcount25]
  have hdedup : ((dfY25 today).map (fun r => r.nomeAbreviado)).dedup = ["Y"] := by
    rw [hrep, List.map_replicate, hname]
    decide
  have hblank : ("Y".data.all Char.isWhitespace) = false := by decide
  refine ⟨_, ?_, hElig⟩
  simp only [identify_incompany_months]
  rw [hdedup]
  simp only [List.filterMap_cons, List.filterMap_nil, hblank, Bool.false_eq_true,
    if_false, isEmpty_false_of_mem hElig, List.lookup]
  simp

/-- C3 witness: at the January 2025 instant the amended statement holds on
the concrete Scenario B dataset. -/
theorem eligibility_scenarioB_amended_witness :
    monthIdx sampleToday.year sampleToday.month ≤ monthIdx 2025 6 ∧
      ∃ els, (identify_incompany_months sampleToday (dfY25 sampleToday) 20).lookup "Y" =
          some els ∧ (((2025 : Int), (6 : Nat)), 25) ∈ els :=
  ⟨by decide, eligibility_scenarioB_amended sampleToday (by decide)⟩

/-- A dataset smaller than the threshold produces an empty eligibility
map: no month of any entity can reach the minimum count. -/
theorem identify_empty_of_small (today : DateTime) (df : List ProcRecord)
    (minE : Nat) (h : df.length < minE) :
    identify_incompany_months today df minE = [] := by
  simp only [identify_incompany_months]
  apply List.filterMap_eq_nil_iff.mpr
  intro empresa hemp
  by_cases hblank : empresa.data.all Char.isWhitespace
  · simp [hblank]
  · simp only [hblank, Bool.false_eq_true, if_false]
    have hfe : ((monthsUpTo today.year today.month).filter
        (fun m => decide (minE ≤ monthCount (empresaDf df empresa) m))) = [] := by
      apply List.filter_eq_nil_iff.mpr
      intro m hm
      have hle : monthCount (empresaDf df empresa) m ≤ df.length :=
        le_trans (List.countP_le_length _) (List.length_filter_le _ _)
      simp only [decide_eq_true_eq]
      omega
    rw [hfe]
    simp

/-- C8 counterexample: at the January 2025 instant, with records due 25,
45 and 95 days out, the `Vence em 90 dias` (Due90) count is 0, not the
claimed 1 — a record 95 days out misses the 61..90-day window and falls
through to the year rule. -/
theorem scenarioA_due90_refuted :
    statusCount .vence90 (scenarioA_df sampleToday dA dB dC) ≠ 1 := by
  decide

/-- C8 amended: three records for entity X due in 25, 45 and 95 days give
`{Due30: 1, Due60: 1, Due90: 0}`; the 95-day record is classified
DueThisYear when its due year is the current year and OnTrack otherwise;
and the eligibility map has no entry for X. -/
theorem scenarioA_amended (today d1 d2 d3 : DateTime)
    (h1 : (d1.epochSeconds - today.epochSeconds).fdiv 86400 = 25)
    (h2 : (d2.epochSeconds - today.epochSeconds).fdiv 86400 = 45)
    (h3 : (d3.epochSeconds - today.epochSeconds).fdiv 86400 = 95) :
    statusCount .vence30 (scenarioA_df today d1 d2 d3) = 1 ∧
      statusCount .vence60 (scenarioA_df today d1 d2 d3) = 1 ∧
      statusCount .vence90 (scenarioA_df today d1 d2 d3) = 0 ∧
      statusCount (if d3.year = today.year then Status.aVencerAnoAtual else Status.emDia)
        (scenarioA_df today d1 d2 d3) = 1 ∧
      (identify_incompany_months today (scenarioA_df today d1 d2 d3) 20).lookup "X" =
        none := by
  have e1 : (processRecord today ⟨"X", "EX1", some d1⟩).status = Status.vence30 := by
    show process_status today ⟨"X", "EX1", some d1⟩ = Status.vence30
    simp [process_status, selectFirst, diasParaVencer, optLt, optGe, optLe, optGt,
      refazerYearIs, h1]
  have e2 : (processRecord today ⟨"X", "EX2", some d2⟩).status = Status.vence60 := by
    show process_status today ⟨"X", "EX2", some d2⟩ = Status.vence60
    simp [process_status, selectFirst, diasParaVencer, optLt, optGe, optLe, optGt,
      refazerYearIs, h2]
  have e3 : (processRecord today ⟨"X", "EX3", some d3⟩).status =
      (if d3.year = today.year then Status.aVencerAnoAtual else Status.emDia) := by
    show process_status today ⟨"X", "EX3", some d3⟩ = _
    by_cases hy : d3.year = today.year <;>
      simp [process_status, selectFirst, diasParaVencer, optLt, optGe, optLe, optGt,
        refazerYearIs, h3, hy]
  have hlookup : (identify_incompany_months today (scenarioA_df today d1 d2 d3) 20).lookup
      "X" = none := by
    rw [identify_empty_of_small today _ 20 (by simp [scenarioA_df, process_dataframe])]
    rfl
  by_cases hy : d3.year = today.year
  · rw [if_pos hy]
    rw [if_pos hy] at e3
    refine ⟨?_, ?_, ?_, ?_, hlookup⟩ <;>
      simp [scenarioA_df, process_dataframe, statusCount, e1, e2, e3]
  · rw [if_neg hy]
    rw [if_neg hy] at e3
    refine ⟨?_, ?_, ?_, ?_, hlookup⟩ <;>
      simp [scenarioA_df, process_dataframe, statusCount, e1, e2, e3]

/-- C8 witness: the amended statement at the January 2025 instant with due
dates 25, 45 and 95 days out (the last one inside 2025). -/
theorem scenarioA_amended_witness :
    ((dA.epochSeconds - sampleToday.epochSeconds).fdiv 86400 = 25 ∧
        (dB.epochSeconds - sampleToday.epochSeconds).fdiv 86400 = 45 ∧
        (dC.epochSeconds - sampleToday.epochSeconds).fdiv 86400 = 95) ∧
      statusCount .vence30 (scenarioA_df sampleToday dA dB dC) = 1 ∧
      statusCount .vence60 (scenarioA_df sampleToday dA dB dC) = 1 ∧
      statusCount .vence90 (scenarioA_df sampleToday dA dB dC) = 0 ∧
      statusCount (if dC.year = sampleToday.year then Status.aVencerAnoAtual
          else Status.emDia) (scenarioA_df sampleToday dA dB dC) = 1 ∧
      (identify_incompany_months sampleToday (scenarioA_df sampleToday dA dB dC) 20).lookup
          "X" = none :=
  ⟨⟨by decide, by decide, by decide⟩,
    scenarioA_amended sampleToday dA dB dC (by decide) (by decide) (by decide)⟩

end DashConvoca
